import Mathlib

/-!
Shallow embedding of the voice-game core (bwbayu/voice-game) for checking
the natural-language specification against the source.

Sources embedded:
  - src/game/dungeon_map.py   (DungeonMap)
  - src/game/game_state.py    (GameState)
  - src/game/combat.py        (CombatManager, CombatResult)
  - src/game/monster_ai.py    (MonsterManager)
  - src/game/game_controller.py (GameController handlers, worker lifecycle)

Python dicts are modelled as insertion-ordered association lists; machine
integers are Lean Int (Python ints are unbounded, so no wrap-around is
needed); fallible lookups (KeyError) are modelled with Except / an explicit
raise effect.  Randomness (random.shuffle, random.choice) is modelled by an
explicit choice parameter.
-/

namespace VoiceGame

/-- Python `d.get(k)` on an insertion-ordered dict modelled as an
association list: first binding for the key, if any. -/
def alistGet? {α : Type} (l : List (String × α)) (k : String) : Option α :=
  match l with
  | [] => none
  | (k', v) :: rest => if k' = k then some v else alistGet? rest k

/-- Python `d[k] = v`: replace the binding in place if the key exists,
otherwise append a fresh binding at the end (dict insertion order). -/
def alistSet {α : Type} (l : List (String × α)) (k : String) (v : α) :
    List (String × α) :=
  match l with
  | [] => [(k, v)]
  | (k', v') :: rest =>
      if k' = k then (k, v) :: rest else (k', v') :: alistSet rest k v

/-- Python `list(d.keys())`. -/
def alistKeys {α : Type} (l : List (String × α)) : List String :=
  l.map Prod.fst

/-- Python `d.pop(k, None)`: drop the first binding for the key, if any. -/
def alistDrop {α : Type} (l : List (String × α)) (k : String) :
    List (String × α) :=
  match l with
  | [] => []
  | (k', v') :: rest =>
      if k' = k then rest else (k', v') :: alistDrop rest k

-- ── DungeonMap (src/game/dungeon_map.py) ────────────────────────────────────

/-- One room dict of maps/dungeon_map.json: id, name, type, exits, and the
optional boss/lock fields read with dict.get in the source. -/
structure Room where
  id      : String
  name    : String
  type    : String := "normal"
  exits   : List (String × String) := []
  boss_id : Option String := none
  locked  : Bool := false
  key_id  : Option String := none
deriving DecidableEq

/-- The loaded room graph: `self._rooms`, a dict keyed by room id. -/
structure DungeonMap where
  rooms : List (String × Room)
deriving DecidableEq

/-- DungeonMap._load: raises ValueError when no room has type 'home' or no
room has type 'exit'.  The dangling-exit-target scan only logs a warning and
never fails, so it has no effect on the result. -/
def DungeonMap.load (rooms : List (String × Room)) : Except String DungeonMap :=
  let home_rooms := rooms.filter (fun p => p.2.type = "home")
  let exit_rooms := rooms.filter (fun p => p.2.type = "exit")
  if home_rooms.isEmpty then
    .error "DungeonMap: no room with type='home' found."
  else if exit_rooms.isEmpty then
    .error "DungeonMap: no room with type='exit' found."
  else
    .ok ⟨rooms⟩

/-- DungeonMap.get_room: returns the room dict, KeyError if not found. -/
def DungeonMap.get_room (m : DungeonMap) (room_id : String) :
    Except String Room :=
  match alistGet? m.rooms room_id with
  | none => .error "DungeonMap: unknown room id."
  | some r => .ok r

/-- DungeonMap.resolve_direction:
`self._rooms.get(from_room_id, {}).get("exits", {}).get(direction)` —
total over arbitrary inputs. -/
def DungeonMap.resolve_direction (m : DungeonMap)
    (from_room_id direction : String) : Option String :=
  match alistGet? m.rooms from_room_id with
  | none => none
  | some r => alistGet? r.exits direction

/-- DungeonMap.get_boss_id: `self._rooms.get(room_id, {}).get("boss_id")`. -/
def DungeonMap.get_boss_id (m : DungeonMap) (room_id : String) :
    Option String :=
  match alistGet? m.rooms room_id with
  | none => none
  | some r => r.boss_id

/-- DungeonMap.get_all_boss_room_ids: ids of all rooms with type 'boss'. -/
def DungeonMap.get_all_boss_room_ids (m : DungeonMap) : List String :=
  (m.rooms.filter (fun p => p.2.type = "boss")).map Prod.fst

/-- DungeonMap.is_locked: `bool(rooms.get(room_id, {}).get("locked", False))`. -/
def DungeonMap.is_locked (m : DungeonMap) (room_id : String) : Bool :=
  match alistGet? m.rooms room_id with
  | none => false
  | some r => r.locked

/-- DungeonMap.get_required_key: `rooms.get(room_id, {}).get("key_id")`. -/
def DungeonMap.get_required_key (m : DungeonMap) (room_id : String) :
    Option String :=
  match alistGet? m.rooms room_id with
  | none => none
  | some r => r.key_id

/-- DungeonMap.all_room_ids: `list(self._rooms.keys())`. -/
def DungeonMap.all_room_ids (m : DungeonMap) : List String :=
  alistKeys m.rooms

-- ── GameState (src/game/game_state.py) ──────────────────────────────────────

/-- config.INVENTORY_CAP from src/config.py. -/
def INVENTORY_CAP : Nat := 8

/-- The "player" sub-record of the persisted state document. -/
structure PlayerState where
  current_room : String
  hp           : Int
  max_hp       : Int
  equipped     : List (String × Option String)
  bag          : List String
  last_action  : String
deriving DecidableEq

/-- The "world" sub-record of the persisted state document. -/
structure WorldState where
  cleared_bosses    : List String
  room_items        : List (String × List String)
  boss_hp           : List (String × Int)
  monster_hp        : List (String × Int)
  monster_positions : List (String × String)
  unlocked_rooms    : List String
deriving DecidableEq

/-- GameState._data (the "meta" sub-record carries no game logic and is
omitted). -/
structure GameState where
  player : PlayerState
  world  : WorldState
deriving DecidableEq

/-- _EQUIPPED_DEFAULTS from src/game/game_state.py. -/
def EQUIPPED_DEFAULTS : List (String × Option String) :=
  [("weapon", some "bare_hands"), ("helmet", none), ("suit", none),
   ("legs", none), ("shoes", none), ("cloak", none), ("shield", none)]

/-- _DEFAULT_STATE from src/game/game_state.py. -/
def DEFAULT_STATE : GameState :=
  { player := { current_room := "home", hp := 100, max_hp := 100,
                equipped := EQUIPPED_DEFAULTS, bag := [],
                last_action := "game started" },
    world := { cleared_bosses := [], room_items := [], boss_hp := [],
               monster_hp := [], monster_positions := [],
               unlocked_rooms := [] } }

/-- GameState.inventory: union of truthy equipped item ids and the bag
(`[v for v in eq.values() if v] + list(bag)`; Python truthiness drops None
and the empty string). -/
def GameState.inventory (s : GameState) : List String :=
  (s.player.equipped.filterMap Prod.snd).filter (fun v => v ≠ "") ++
    s.player.bag

/-- GameState.is_boss_cleared. -/
def GameState.is_boss_cleared (s : GameState) (boss_id : String) : Bool :=
  s.world.cleared_bosses.contains boss_id

/-- GameState.get_room_items: `room_items.get(room_id, [])` (as a copy). -/
def GameState.get_room_items (s : GameState) (room_id : String) :
    List String :=
  (alistGet? s.world.room_items room_id).getD []

/-- GameState.set_room_items. -/
def GameState.set_room_items (s : GameState) (room_id : String)
    (items : List String) : GameState :=
  { s with world.room_items := alistSet s.world.room_items room_id items }

/-- GameState.remove_room_item: `items.remove(item_id)` removes the first
occurrence when present; the (possibly unchanged) list is stored back. -/
def GameState.remove_room_item (s : GameState) (room_id item_id : String) :
    GameState :=
  let items := (alistGet? s.world.room_items room_id).getD []
  let items' := if item_id ∈ items then items.erase item_id else items
  { s with world.room_items := alistSet s.world.room_items room_id items' }

/-- GameState.get_equipped_in_slot: `equipped.get(slot)` flattened. -/
def GameState.get_equipped_in_slot (s : GameState) (slot : String) :
    Option String :=
  (alistGet? s.player.equipped slot).getD none

/-- GameState.equip_item: put item_id in slot, returning the displaced
item id (or none). -/
def GameState.equip_item (s : GameState) (slot item_id : String) :
    Option String × GameState :=
  let old := (alistGet? s.player.equipped slot).getD none
  (old, { s with player.equipped :=
            alistSet s.player.equipped slot (some item_id) })

/-- GameState.add_to_bag: false (and no mutation) if the bag is at
INVENTORY_CAP, else append. -/
def GameState.add_to_bag (s : GameState) (item_id : String) :
    Bool × GameState :=
  if s.player.bag.length ≥ INVENTORY_CAP then (false, s)
  else (true, { s with player.bag := s.player.bag ++ [item_id] })

/-- GameState.remove_from_bag: drop the first bag occurrence if present. -/
def GameState.remove_from_bag (s : GameState) (item_id : String) : GameState :=
  if item_id ∈ s.player.bag then
    { s with player.bag := s.player.bag.erase item_id }
  else s

/-- GameState.heal: clamp to max_hp, return the hp actually gained. -/
def GameState.heal (s : GameState) (amount : Int) : Int × GameState :=
  let new_hp := min (s.player.hp + amount) s.player.max_hp
  (new_hp - s.player.hp, { s with player.hp := new_hp })

/-- Helper for GameState.remove_from_inventory: set the first equip slot
holding item_id to None (Python iterates dict insertion order and
returns after the first hit). -/
def clearFirstSlot (eq : List (String × Option String)) (item_id : String) :
    List (String × Option String) :=
  match eq with
  | [] => []
  | (sl, v) :: rest =>
      if v = some item_id then (sl, none) :: rest
      else (sl, v) :: clearFirstSlot rest item_id

/-- GameState.remove_from_inventory: remove from the bag if present there,
otherwise clear the first equip slot holding the item; no-op if absent. -/
def GameState.remove_from_inventory (s : GameState) (item_id : String) :
    GameState :=
  if item_id ∈ s.player.bag then
    { s with player.bag := s.player.bag.erase item_id }
  else
    { s with player.equipped := clearFirstSlot s.player.equipped item_id }

/-- GameState.get_boss_hp: current hp for boss_id; the Python setdefault
initialises the entry to max_hp when absent (the stored value read back on
every later get is the same, so the lazy insert is modelled as a read). -/
def GameState.get_boss_hp (s : GameState) (boss_id : String) (max_hp : Int) :
    Int :=
  (alistGet? s.world.boss_hp boss_id).getD max_hp

/-- GameState.set_boss_hp. -/
def GameState.set_boss_hp (s : GameState) (boss_id : String) (hp : Int) :
    GameState :=
  { s with world.boss_hp := alistSet s.world.boss_hp boss_id hp }

/-- GameState.get_monster_hp: same lazy-initialising read as get_boss_hp. -/
def GameState.get_monster_hp (s : GameState) (monster_id : String)
    (max_hp : Int) : Int :=
  (alistGet? s.world.monster_hp monster_id).getD max_hp

/-- GameState.set_monster_hp. -/
def GameState.set_monster_hp (s : GameState) (monster_id : String)
    (hp : Int) : GameState :=
  { s with world.monster_hp := alistSet s.world.monster_hp monster_id hp }

/-- GameState.set_monster_position. -/
def GameState.set_monster_position (s : GameState)
    (monster_id room_id : String) : GameState :=
  { s with world.monster_positions :=
      alistSet s.world.monster_positions monster_id room_id }

/-- GameState.remove_monster: pop from positions and hp maps. -/
def GameState.remove_monster (s : GameState) (monster_id : String) :
    GameState :=
  { s with world.monster_positions :=
             alistDrop s.world.monster_positions monster_id,
           world.monster_hp := alistDrop s.world.monster_hp monster_id }

/-- GameState.get_monsters_in_room. -/
def GameState.get_monsters_in_room (s : GameState) (room_id : String) :
    List String :=
  (s.world.monster_positions.filter (fun p => p.2 = room_id)).map Prod.fst

/-- GameState.unlock_room: append if not already present. -/
def GameState.unlock_room (s : GameState) (room_id : String) : GameState :=
  if room_id ∈ s.world.unlocked_rooms then s
  else { s with world.unlocked_rooms := s.world.unlocked_rooms ++ [room_id] }

/-- GameState.move_player: unconditional, validation is the controller's
job. -/
def GameState.move_player (s : GameState) (target_room_id : String) :
    GameState :=
  { s with player.current_room := target_room_id }

/-- GameState.set_last_action. -/
def GameState.set_last_action (s : GameState) (description : String) :
    GameState :=
  { s with player.last_action := description }

/-- GameState.mark_boss_cleared: append if not already present. -/
def GameState.mark_boss_cleared (s : GameState) (boss_id : String) :
    GameState :=
  if boss_id ∈ s.world.cleared_bosses then s
  else { s with world.cleared_bosses := s.world.cleared_bosses ++ [boss_id] }

-- ── CombatManager (src/game/combat.py) ──────────────────────────────────────

/-- One retaliation skill of a boss/monster definition. -/
structure Skill where
  id         : String
  name       : String
  damage     : Int
  taunt_hint : String
deriving DecidableEq

/-- A guardian-or-roamer definition plus the live current_hp the controller
attaches while combat is active. -/
structure Enemy where
  id         : String
  name       : String
  max_hp     : Int
  skills     : List Skill
  current_hp : Int := 0
deriving DecidableEq

/-- CombatResult from src/game/combat.py. -/
structure CombatResult where
  player_damage : Int
  boss_damage   : Int
  skill_id      : String
  skill_name    : String
  taunt_hint    : String
deriving DecidableEq

/-- CombatManager.resolve: the skill is chosen by random.choice from
boss["skills"]; the choice is an explicit parameter here. -/
def CombatManager.resolve (item_damage : Int) (skill : Skill) : CombatResult :=
  { player_damage := item_damage, boss_damage := skill.damage,
    skill_id := skill.id, skill_name := skill.name,
    taunt_hint := skill.taunt_hint }

-- ── MonsterManager (src/game/monster_ai.py) ─────────────────────────────────

/-- MonsterManager.scatter: eligible rooms are those of type 'normal';
`random.shuffle` is modelled by the shuffle parameter (a permutation in any
real run); `zip(monster_ids, shuffled)` pairs ids with shuffled rooms. -/
def MonsterManager.scatter (monster_ids : List String) (dungeon : DungeonMap)
    (game_state : GameState) (shuffle : List String → List String) :
    GameState :=
  let eligible_rooms :=
    (dungeon.rooms.filter (fun p => p.2.type = "normal")).map Prod.fst
  if eligible_rooms.isEmpty then game_state
  else
    let shuffled := shuffle eligible_rooms
    (List.zip monster_ids shuffled).foldl
      (fun st p => st.set_monster_position p.1 p.2) game_state

/-- MonsterManager.move_all: each living monster steps to a random adjacent
'normal' room (the random.choice is the mchoice parameter); a monster with
no eligible neighbour stays put.  The source reads exits/rooms with raising
accessors; positions recorded by this very module always exist in the map,
so the total `.get`-style read used here coincides with the source on every
state the program can produce. -/
def MonsterManager.move_all (dungeon : DungeonMap) (s : GameState)
    (mchoice : List String → String) : GameState :=
  s.world.monster_positions.foldl
    (fun st p =>
      let exits := match alistGet? dungeon.rooms p.2 with
                   | none => []
                   | some r => r.exits
      let eligible := (exits.map Prod.snd).filter
        (fun target => match alistGet? dungeon.rooms target with
                       | none => false
                       | some r => r.type = "normal")
      if eligible.isEmpty then st
      else st.set_monster_position p.1 (mchoice eligible))
    s

-- ── GameController (src/game/game_controller.py) ────────────────────────────

/-- One item definition of data/items.json as the controller reads it
(dict.get with defaults). -/
structure Item where
  id      : String
  type    : String
  name    : String := ""
  slot    : String := ""
  damage  : Int := 0
  defense : Int := 0
  heal    : Int := 0
deriving DecidableEq

/-- IntentAction from src/ai/intent_parser.py (the pydantic schema; the
optional fields default to the empty string here). -/
structure IntentAction where
  action    : String
  direction : String := ""
  item_id   : String := ""
deriving DecidableEq

/-- Externally visible steps a handler performs, in source order:
world-state mutations, the atomic persist (save), Qt signal emissions,
audio playback, narration-worker launches, and raised exceptions. -/
inductive Effect
  | mutate  (desc : String)
  | persist
  | ui      (name : String)
  | audio   (name : String)
  | narrate (kind : String)
  | raise   (msg : String)
deriving DecidableEq

/-- The GameController fields the handlers touch. -/
structure Controller where
  dungeon             : DungeonMap
  state               : GameState
  item_registry       : List (String × Item)
  boss_registry       : List (String × Enemy)
  monster_registry    : List (String × Enemy)
  in_combat           : Bool := false
  current_enemy       : Option Enemy := none
  enemy_type          : Option String := none
  last_attack_item_id : String := ""
  previous_room_name  : Option String := none

/-- GameController._compute_total_defense: sum of `defense` over equipped
slots other than "weapon" whose item id is truthy and in the registry. -/
def Controller.compute_total_defense (c : Controller) : Int :=
  c.state.player.equipped.foldl
    (fun total p =>
      match p.2 with
      | some item_id =>
          if p.1 ≠ "weapon" ∧ item_id ≠ "" then
            match alistGet? c.item_registry item_id with
            | some item => total + item.defense
            | none => total
          else total
      | none => total) 0

/-- The condition of the exit gate in GameController._handle_move step 1:
`all(is_boss_cleared(b) for b in boss_ids if b)` over the boss ids of all
type-'boss' rooms (the `if b` drops None and empty ids). -/
def Controller.exit_gate_open (c : Controller) : Bool :=
  (((c.dungeon.get_all_boss_room_ids.map c.dungeon.get_boss_id).filterMap
      id).filter (fun b => b != "")).all
    (fun b => c.state.is_boss_cleared b)

/-- GameController._start_combat: build the live enemy projection from the
boss registry and resume its persisted hp, then play the boss background
track and launch the boss-entry narration. -/
def Controller.start_combat (c : Controller) (boss_id : String) :
    Controller × List Effect :=
  match alistGet? c.boss_registry boss_id with
  | none => (c, [.raise "KeyError: boss registry"])
  | some boss =>
      let current_hp := c.state.get_boss_hp boss_id boss.max_hp
      ({ c with current_enemy := some { boss with current_hp := current_hp },
                enemy_type := some "boss", in_combat := true },
       [.audio "bg_boss", .ui "narration_started", .narrate "bossEntry"])

/-- GameController._start_monster_combat. -/
def Controller.start_monster_combat (c : Controller) (monster_id : String) :
    Controller × List Effect :=
  match alistGet? c.monster_registry monster_id with
  | none => (c, [.raise "KeyError: monster registry"])
  | some mdef =>
      let current_hp := c.state.get_monster_hp monster_id mdef.max_hp
      ({ c with current_enemy := some { mdef with current_hp := current_hp },
                enemy_type := some "monster", in_combat := true },
       [.audio "bg_boss", .ui "narration_started", .narrate "monsterEncounter"])

/-- Steps 4–7 of GameController._handle_move (the normal-move tail shared
by the no-boss and cleared-boss paths): flee any active combat, move,
persist, then win narration / monster stepping / room narration. -/
def Controller.move_normal_tail (c : Controller)
    (direction target_id : String) (target_room : Room)
    (mchoice : List String → String) : Controller × List Effect :=
  let fled := c.in_combat
  let c1 := if fled then
              { c with in_combat := false, current_enemy := none,
                       enemy_type := none }
            else c
  let fleeEffs : List Effect := if fled then [.ui "combat_ended"] else []
  let s1 := (c1.state.move_player target_id).set_last_action
              ("moved " ++ direction)
  let c2 := { c1 with state := s1 }
  let effs1 := fleeEffs ++
    [Effect.mutate "move_player", Effect.mutate "set_last_action",
     Effect.persist, Effect.ui "state_updated",
     Effect.ui "room_items_changed", Effect.ui "map_state_changed"]
  if target_room.type = "exit" then
    (c2, effs1 ++ [Effect.ui "narration_started", Effect.narrate "win"])
  else
    let s2 := MonsterManager.move_all c2.dungeon c2.state mchoice
    let c3 := { c2 with state := s2 }
    let effs2 := effs1 ++ [Effect.mutate "monster_positions", Effect.persist,
                           Effect.ui "map_state_changed"]
    match c3.state.get_monsters_in_room target_id with
    | m :: _ =>
        let (c4, e) := c3.start_monster_combat m
        (c4, effs2 ++ e)
    | [] =>
        let bg_track := if target_room.type = "home" ∨ target_room.type = "exit"
                        then "normal" else target_room.type
        (c3, effs2 ++ [Effect.audio ("bg_" ++ bg_track),
                       Effect.ui "narration_started",
                       Effect.narrate "roomEntry"])

/-- GameController._handle_move, translated branch for branch: unresolved
direction; exit gate; locked room (with and without the key); boss-room
entry; then the normal tail. -/
def Controller.handle_move (c : Controller) (direction : String)
    (mchoice : List String → String) : Controller × List Effect :=
  let room_id := c.state.player.current_room
  match c.dungeon.resolve_direction room_id direction with
  | none => (c, [.ui "error_occurred"])
  | some target_id =>
    let c := { c with previous_room_name :=
                 (alistGet? c.dungeon.rooms room_id).map Room.name }
    match c.dungeon.get_room target_id with
    | .error e => (c, [.raise e])
    | .ok target_room =>
      if target_room.type = "exit" ∧ ¬ c.exit_gate_open = true then
        (c, [.ui "narration_started", .narrate "exitBlocked"])
      else if c.dungeon.is_locked target_id = true ∧
              target_id ∉ c.state.world.unlocked_rooms then
        match c.dungeon.get_required_key target_id with
        | some k =>
            if k ≠ "" ∧ k ∈ c.state.inventory then
              let s1 := c.state.unlock_room target_id
              let s2 := s1.remove_from_inventory k
              let s3 := (s2.move_player target_id).set_last_action
                          ("unlocked and moved " ++ direction)
              ({ c with state := s3 },
               [.mutate "unlock_room", .mutate "remove_from_inventory",
                .mutate "move_player", .mutate "set_last_action", .persist,
                .ui "state_updated", .ui "room_items_changed",
                .ui "inventory_updated", .ui "map_state_changed",
                .ui "narration_started", .narrate "unlock"])
            else (c, [.ui "narration_started", .narrate "lockedRoom"])
        | none => (c, [.ui "narration_started", .narrate "lockedRoom"])
      else
        match c.dungeon.get_boss_id target_id with
        | some boss_id =>
            if boss_id ≠ "" ∧ ¬ c.state.is_boss_cleared boss_id = true then
              let s1 := (c.state.move_player target_id).set_last_action
                          ("moved " ++ direction)
              let (c2, e) := { c with state := s1 }.start_combat boss_id
              (c2, [Effect.mutate "move_player",
                    Effect.mutate "set_last_action", Effect.persist,
                    Effect.ui "state_updated", Effect.ui "room_items_changed",
                    Effect.ui "map_state_changed"] ++ e)
            else c.move_normal_tail direction target_id target_room mchoice
        | none => c.move_normal_tail direction target_id target_room mchoice

/-- GameController._handle_pickup, translated branch for branch. -/
def Controller.handle_pickup (c : Controller) (item_id : String) :
    Controller × List Effect :=
  let room_id := c.state.player.current_room
  let room_items := c.state.get_room_items room_id
  if item_id ∉ room_items then (c, [.ui "error_occurred"])
  else match alistGet? c.item_registry item_id with
  | none => (c, [.ui "error_occurred"])
  | some item =>
    if item.type = "key" then
      let (ok, s1) := c.state.add_to_bag item_id
      if ok = false then (c, [.ui "error_occurred"])
      else
        let s2 := s1.remove_room_item room_id item_id
        ({ c with state := s2 },
         [.mutate "add_to_bag", .mutate "remove_room_item", .persist,
          .ui "inventory_updated", .ui "room_items_changed",
          .ui "map_state_changed", .ui "narration_started", .narrate "pickup"])
    else if item.type = "weapon" ∨ item.type = "armor" then
      let (old_id, s1) := c.state.equip_item item.slot item_id
      let s2 := s1.remove_room_item room_id item_id
      let dropBack :=
        match old_id with
        | some o => if o ≠ "" ∧ o ≠ "bare_hands" then some o else none
        | none => none
      let s3 := match dropBack with
        | some o => s2.set_room_items room_id (s2.get_room_items room_id ++ [o])
        | none => s2
      let dropEffs : List Effect :=
        match dropBack with
        | some _ => [.mutate "set_room_items"]
        | none => []
      let narrKind :=
        match old_id with
        | some o =>
            if o ≠ "" ∧ (alistGet? c.item_registry o).isSome then "swap"
            else "pickup"
        | none => "pickup"
      ({ c with state := s3 },
       [Effect.mutate "equip_item", Effect.mutate "remove_room_item"] ++
         dropEffs ++
         [Effect.persist, Effect.ui "inventory_updated",
          Effect.ui "room_items_changed", Effect.ui "map_state_changed",
          Effect.ui "narration_started", Effect.narrate narrKind])
    else if item.type = "potion" then
      let (_, s1) := c.state.heal item.heal
      let s2 := s1.remove_room_item room_id item_id
      ({ c with state := s2 },
       [.mutate "heal", .mutate "remove_room_item", .persist,
        .ui "state_updated", .ui "room_items_changed", .ui "map_state_changed",
        .ui "narration_started", .narrate "potion"])
    else (c, [.ui "error_occurred"])

/-- GameController._handle_attack.  The retaliation skill chosen by
CombatManager.resolve's random.choice and the existence of the boss taunt
wav file are explicit parameters. -/
def Controller.handle_attack (c : Controller) (item_id : String)
    (skill : Skill) (tauntExists : Bool) : Controller × List Effect :=
  if c.in_combat = false then (c, [.ui "error_occurred"])
  else match c.current_enemy with
  | none => (c, [.ui "error_occurred"])
  | some enemy =>
    if item_id ∉ c.state.inventory then (c, [.ui "error_occurred"])
    else match alistGet? c.item_registry item_id with
    | none => (c, [.raise "KeyError: item registry"])
    | some item =>
      let c1 := { c with last_attack_item_id := item_id }
      let result := CombatManager.resolve item.damage skill
      let new_enemy_hp := max 0 (enemy.current_hp - result.player_damage)
      let defense := c1.compute_total_defense
      let new_player_hp :=
        max 0 (c1.state.player.hp - max 0 (result.boss_damage - defense))
      let enemy' := { enemy with current_hp := new_enemy_hp }
      let s1 := { c1.state with player.hp := new_player_hp }
      let isBoss := c1.enemy_type = some "boss"
      let s2 := if isBoss then s1.set_boss_hp enemy.id new_enemy_hp
                else s1.set_monster_hp enemy.id new_enemy_hp
      let hpEffs : List Effect :=
        if isBoss then
          [.mutate "player_hp", .mutate "set_boss_hp"] ++
            (if tauntExists then [Effect.audio "skill_sfx"] else [])
        else [.mutate "player_hp", .mutate "set_monster_hp"]
      let c2 := { c1 with state := s2, current_enemy := some enemy' }
      let effs := hpEffs ++ [Effect.persist, Effect.ui "combat_updated"]
      if new_enemy_hp ≤ 0 then
        if isBoss then
          ({ c2 with state := c2.state.mark_boss_cleared enemy'.id },
           effs ++ [Effect.mutate "mark_boss_cleared", Effect.persist,
                    Effect.ui "map_state_changed",
                    Effect.ui "narration_started", Effect.narrate "bossDefeat"])
        else
          ({ c2 with state := c2.state.remove_monster enemy'.id },
           effs ++ [Effect.mutate "remove_monster", Effect.persist,
                    Effect.ui "map_state_changed",
                    Effect.ui "narration_started",
                    Effect.narrate "monsterDefeat"])
      else if new_player_hp ≤ 0 then
        (c2, effs ++ [Effect.ui "narration_started", Effect.narrate "death"])
      else
        (c2, effs ++ [Effect.ui "narration_started",
                      Effect.narrate "combatRound"])

/-- GameController._handle_action: emit processing_finished, then dispatch
on the intent tag ("get"/"collect" and anything else fall through with no
handler, as in the source). -/
def Controller.handle_action (c : Controller) (a : IntentAction)
    (skill : Skill) (tauntExists : Bool) (mchoice : List String → String) :
    Controller × List Effect :=
  if a.action = "unknown" then
    (c, [.ui "processing_finished", .ui "error_occurred"])
  else if a.action = "move" then
    let (c', e) := c.handle_move a.direction mchoice
    (c', Effect.ui "processing_finished" :: e)
  else if a.action = "pickup" then
    let (c', e) := c.handle_pickup a.item_id
    (c', Effect.ui "processing_finished" :: e)
  else if a.action = "attack" then
    let (c', e) := c.handle_attack a.item_id skill tauntExists
    (c', Effect.ui "processing_finished" :: e)
  else (c, [.ui "processing_finished"])

/-- GameController._on_unlock_narration_done: deliver text/audio, then
chain into the plain room-entry narration of the just-entered room. -/
def Controller.on_unlock_narration_done (c : Controller) :
    Controller × List Effect :=
  (c, [.ui "narration_text", .audio "clip", .ui "narration_finished",
       .ui "narration_started", .narrate "roomEntry"])

/-- The kinds of the narration jobs launched in an effect trace, in
order. -/
def narrationsOf (l : List Effect) : List String :=
  l.filterMap (fun e => match e with | .narrate k => some k | _ => none)

/-- Number of narration workers an effect trace starts. -/
def countNarrate (l : List Effect) : Nat :=
  (narrationsOf l).length

-- ── Persistence discipline (for C2) ─────────────────────────────────────────

/-- Externally observable effects: UI signal emissions, audio playback and
narration-worker launches. -/
def Effect.observable : Effect → Bool
  | .ui _ => true
  | .audio _ => true
  | .narrate _ => true
  | _ => false

/-- Observability restricted to UI notifications and narration launches
(audio not counted). -/
def Effect.observableNoAudio : Effect → Bool
  | .ui _ => true
  | .narrate _ => true
  | _ => false

/-- Scan an effect trace carrying a dirty flag: a mutation makes the state
dirty, a persist cleans it, and an effect satisfying obs while dirty is a
discipline violation. -/
def persistBefore (obs : Effect → Bool) : List Effect → Bool → Bool
  | [], _ => true
  | e :: rest, dirty =>
      match e with
      | .mutate _ => persistBefore obs rest true
      | .persist => persistBefore obs rest false
      | _ => (!(obs e && dirty)) && persistBefore obs rest dirty

/-- Full discipline of claim C2: no UI notification, audio playback or
narration launch occurs while an unpersisted world mutation is
outstanding. -/
def persistDiscipline (l : List Effect) : Bool :=
  persistBefore Effect.observable l false

/-- Discipline with audio exempted. -/
def persistDisciplineNoAudio (l : List Effect) : Bool :=
  persistBefore Effect.observableNoAudio l false

-- ── Orchestrator worker lifecycle (for C1) ──────────────────────────────────

/-- Orchestrator state for the worker-lifecycle step relation: the
controller, how many narration workers are currently running, and the
recording guard flag (GameController._is_recording). -/
structure OrchState where
  ctrl         : Controller
  running      : Nat
  is_recording : Bool

/-- Events driving the orchestrator: the hold-to-talk key press/release,
a final transcript delivering a parsed intent (with the random choices the
handlers consume), and a narration worker finishing (chains is true for
the completions that immediately launch a follow-up room narration:
unlock done, monster-defeat done). -/
inductive OEvent
  | startRecording
  | stopRecording
  | transcriptReady (a : IntentAction) (skill : Skill) (tauntExists : Bool)
      (mchoice : List String → String)
  | narrationDone (chains : Bool)

/-- One orchestrator step, from the source:
on_recording_started returns early when _is_recording is already set;
on_recording_stopped returns early when it is not; a ready transcript is
parsed and dispatched through _handle_action unconditionally — nothing
consults the narration worker, so every narration trigger in the handler
starts a new worker on top of whatever is already running; a finishing
worker delivers its result and, for the chaining completions, starts the
follow-up room narration. -/
def ostep (s : OrchState) (e : OEvent) : OrchState :=
  match e with
  | .startRecording =>
      if s.is_recording then s else { s with is_recording := true }
  | .stopRecording =>
      if s.is_recording then { s with is_recording := false } else s
  | .transcriptReady a skill tauntExists mchoice =>
      let r := s.ctrl.handle_action a skill tauntExists mchoice
      { s with ctrl := r.1, running := s.running + countNarrate r.2 }
  | .narrationDone chains =>
      { s with running := s.running - 1 + (if chains then 1 else 0) }

/-- GameController.start_game: emit the initial state and either resume
boss combat (saved position inside an uncleared boss room) or narrate the
starting room — both branches start exactly one narration worker. -/
def Controller.start_game (c : Controller) : OrchState :=
  let room_id := c.state.player.current_room
  match c.dungeon.get_boss_id room_id with
  | some boss_id =>
      if boss_id ≠ "" ∧ ¬ c.state.is_boss_cleared boss_id = true then
        ⟨(c.start_combat boss_id).1, 1, false⟩
      else ⟨c, 1, false⟩
  | none => ⟨c, 1, false⟩

/-- States reachable from s0 under the orchestrator step function. -/
inductive Reachable (s0 : OrchState) : OrchState → Prop
  | refl : Reachable s0 s0
  | step (s : OrchState) (e : OEvent) : Reachable s0 s → Reachable s0 (ostep s e)

-- ── Item-containment invariant (for C9) ─────────────────────────────────────

/-- Every item occurrence across the three container kinds, as one list:
all room floor lists, all occupied equip-slot values, and the bag. -/
def GameState.allContained (s : GameState) : List String :=
  (s.world.room_items.flatMap Prod.snd) ++
    (s.player.equipped.flatMap (fun p => p.2.toList)) ++ s.player.bag

/-- The spec invariant: no item id appears in more than one container
(counting multiplicity, so an id may occur at most once across all room
floors, equip slots and the bag together). -/
def GameState.itemInv (s : GameState) : Prop :=
  s.allContained.Nodup

instance decItemInv (s : GameState) : Decidable s.itemInv :=
  inferInstanceAs (Decidable s.allContained.Nodup)

/-- Occurrence count of one item id across all containers. -/
def GameState.occ (s : GameState) (a : String) : Nat :=
  s.allContained.count a

/-- The dispatcher-level operations that touch item containers: a pickup
intent (GameController._handle_pickup) and a bare
GameState.remove_from_inventory call (key consumption on unlock). -/
inductive DispatchOp
  | pickup (item_id : String)
  | removeItem (item_id : String)

/-- Apply a sequence of dispatcher-level container operations. -/
def Controller.applyOps (c : Controller) : List DispatchOp → Controller
  | [] => c
  | op :: rest =>
      (match op with
       | .pickup i => (c.handle_pickup i).1
       | .removeItem i =>
           { c with state := c.state.remove_from_inventory i }).applyOps rest

-- ── Concrete inputs for counterexamples and witnesses ───────────────────────

/-- A map whose home room has an exit pointing at a missing room: the
dangling-target scan in _load only warns, so this loads. -/
def docDangling : List (String × Room) :=
  [("home", { id := "home", name := "Home", type := "home",
              exits := [("north", "ghost")] }),
   ("e1", { id := "e1", name := "Out", type := "exit" })]

/-- A well-formed two-room map with no dangling exits. -/
def docClean : List (String × Room) :=
  [("home", { id := "home", name := "Home", type := "home",
              exits := [("north", "e1")] }),
   ("e1", { id := "e1", name := "Out", type := "exit",
            exits := [("south", "home")] })]

/-- A map with two home-kind rooms and one exit-kind room. -/
def docTwoHomes : List (String × Room) :=
  [("h1", { id := "h1", name := "A", type := "home" }),
   ("h2", { id := "h2", name := "B", type := "home" }),
   ("e1", { id := "e1", name := "E", type := "exit" })]

/-- Whether DungeonMap._load succeeds on a document. -/
def loadSucceeds (rooms : List (String × Room)) : Bool :=
  match DungeonMap.load rooms with
  | .ok _ => true
  | .error _ => false

/-- home ↔ r1 (normal), plus an exit room; no bosses, no monsters. -/
def mapPlain : DungeonMap :=
  ⟨[("home", { id := "home", name := "Home", type := "home",
               exits := [("north", "r1")] }),
    ("r1", { id := "r1", name := "Cave", type := "normal",
             exits := [("south", "home")] }),
    ("e1", { id := "e1", name := "Out", type := "exit" })]⟩

/-- Controller over mapPlain in the default state. -/
def ctrlPlain : Controller :=
  { dungeon := mapPlain, state := DEFAULT_STATE, item_registry := [],
    boss_registry := [], monster_registry := [] }

/-- The orchestrator state right after start_game on ctrlPlain: one
narration worker (the starting-room narration) is running. -/
def initPlain : OrchState := ctrlPlain.start_game

/-- A parsed move-north intent. -/
def moveNorth : IntentAction := { action := "move", direction := "north" }

/-- A throwaway skill for events that never reach combat. -/
def dummySkill : Skill := { id := "s", name := "s", damage := 0, taunt_hint := "" }

/-- A throwaway monster-move chooser. -/
def noChoice : List String → String := fun _ => ""

/-- The transcript-ready event carrying the move-north intent. -/
def evMoveNorth : OEvent := .transcriptReady moveNorth dummySkill false noChoice

/-- An orchestrator state in the middle of a recording. -/
def recState : OrchState := { ctrl := ctrlPlain, running := 0, is_recording := true }

/-- A boss with one retaliation skill. -/
def skillFang : Skill := { id := "fang", name := "Fang", damage := 3, taunt_hint := "t" }

/-- A live boss enemy at 20 hp. -/
def bossG1 : Enemy :=
  { id := "g1", name := "Golem", max_hp := 20, skills := [skillFang], current_hp := 20 }

/-- A 5-damage weapon. -/
def swordItem : Item :=
  { id := "sword", type := "weapon", name := "Sword", slot := "weapon", damage := 5 }

/-- A controller mid boss combat with the sword equipped. -/
def ctrlAtk : Controller :=
  { dungeon := mapPlain,
    state := { DEFAULT_STATE with
                 player.equipped := [("weapon", some "sword"), ("helmet", none),
                                     ("suit", none), ("legs", none), ("shoes", none),
                                     ("cloak", none), ("shield", none)] },
    item_registry := [("sword", swordItem)],
    boss_registry := [("g1", bossG1)], monster_registry := [],
    in_combat := true, current_enemy := some bossG1, enemy_type := some "boss" }

/-- Default state plus one key lying on the floor of r1. -/
def stateKeyOnFloor : GameState :=
  { DEFAULT_STATE with world.room_items := [("r1", ["key1"])] }

/-- Map for the C4 failing input: exactly one normal room. -/
def mapOneNormal : DungeonMap :=
  ⟨[("home", { id := "home", name := "Home", type := "home",
               exits := [("north", "r1")] }),
    ("r1", { id := "r1", name := "Cave", type := "normal",
             exits := [("south", "home")] }),
    ("e1", { id := "e1", name := "Out", type := "exit" })]⟩

/-- Map with a locked normal room requiring key1. -/
def mapLocked : DungeonMap :=
  ⟨[("home", { id := "home", name := "Home", type := "home",
               exits := [("north", "vault")] }),
    ("vault", { id := "vault", name := "Vault", type := "normal",
                locked := true, key_id := some "key1" }),
    ("e1", { id := "e1", name := "Out", type := "exit" })]⟩

/-- Controller at home holding key1 in the bag, facing the locked vault. -/
def ctrlLocked : Controller :=
  { dungeon := mapLocked,
    state := { DEFAULT_STATE with player.bag := ["key1"] },
    item_registry := [("key1", { id := "key1", type := "key", name := "Key" })],
    boss_registry := [], monster_registry := [] }

/-- Map with an exit room and an uncleared boss room. -/
def mapGuarded : DungeonMap :=
  ⟨[("home", { id := "home", name := "Home", type := "home",
               exits := [("east", "e1"), ("north", "b1")] }),
    ("b1", { id := "b1", name := "Lair", type := "boss",
             boss_id := some "g1", exits := [("south", "home")] }),
    ("e1", { id := "e1", name := "Out", type := "exit" })]⟩

/-- Controller at home in mapGuarded with no boss cleared. -/
def ctrlGuarded : Controller :=
  { dungeon := mapGuarded, state := DEFAULT_STATE, item_registry := [],
    boss_registry := [("g1", bossG1)], monster_registry := [] }

/-- Controller over mapPlain whose state has key1 on the floor of r1 and
the player standing in r1. -/
def ctrlBag : Controller :=
  { dungeon := mapPlain,
    state := { stateKeyOnFloor with player.current_room := "r1" },
    item_registry := [("key1", { id := "key1", type := "key", name := "Key" })],
    boss_registry := [], monster_registry := [] }

-- ═══════════════════════════ Theorems ══════════════════════════════════════

-- ── Association-list lemmas ─────────────────────────────────────────────────

theorem alistGet?_mem {α : Type} {l : List (String × α)} {k : String} {v : α}
    (h : alistGet? l k = some v) : (k, v) ∈ l := by
  induction l with
  | nil => simp [alistGet?] at h
  | cons p rest ih =>
      obtain ⟨k', v'⟩ := p
      by_cases hk : k' = k
      · subst hk
        simp [alistGet?] at h
        subst h
        exact List.mem_cons_self _ _
      · simp only [alistGet?, if_neg hk] at h
        exact List.mem_cons_of_mem _ (ih h)

theorem alistGet?_eq_none_of_not_mem {α : Type} {l : List (String × α)}
    {k : String} (h : k ∉ alistKeys l) : alistGet? l k = none := by
  induction l with
  | nil => rfl
  | cons p rest ih =>
      obtain ⟨k', v'⟩ := p
      have hcons : alistKeys ((k', v') :: rest) = k' :: alistKeys rest := rfl
      have hne : k' ≠ k := by
        intro he
        apply h
        rw [hcons, he]
        exact List.mem_cons_self _ _
      have hrest : k ∉ alistKeys rest := by
        intro hm
        apply h
        rw [hcons]
        exact List.mem_cons_of_mem _ hm
      simp only [alistGet?, if_neg hne]
      exact ih hrest

-- ── C3: resolve stays inside the room graph ─────────────────────────────────

/-- Claim C3, counterexample: a graph with a dangling exit target passes
load (the dangling scan is only a warning), and resolve then returns an id
that is not in all_room_ids. -/
theorem C3_counterexample :
    DungeonMap.load docDangling = .ok ⟨docDangling⟩ ∧
    (DungeonMap.mk docDangling).resolve_direction "home" "north" = some "ghost" ∧
    "ghost" ∉ (DungeonMap.mk docDangling).all_room_ids := by
  refine ⟨rfl, rfl, ?_⟩
  decide

/-- Claim C3, amended: for every loaded room graph in which every exit
target is itself a room id of the graph, resolve(room, direction) returns
either None or an id present in all_room_ids; the closedness hypothesis is
necessary because load accepts dangling exit targets with only a warning. -/
theorem C3_amended_resolve_closed (doc : List (String × Room)) (m : DungeonMap)
    (_hload : DungeonMap.load doc = .ok m)
    (hclosed : ∀ p ∈ m.rooms, ∀ q ∈ p.2.exits, q.2 ∈ alistKeys m.rooms)
    (room_id direction target : String)
    (hres : m.resolve_direction room_id direction = some target) :
    target ∈ m.all_room_ids := by
  unfold DungeonMap.resolve_direction at hres
  cases hr : alistGet? m.rooms room_id with
  | none => rw [hr] at hres; cases hres
  | some room =>
      rw [hr] at hres
      exact hclosed (room_id, room) (alistGet?_mem hr) (direction, target)
        (alistGet?_mem hres)

/-- Closed instance of C3_amended_resolve_closed on docClean. -/
theorem C3_amended_resolve_closed_witness :
    "e1" ∈ (DungeonMap.mk docClean).all_room_ids :=
  C3_amended_resolve_closed docClean ⟨docClean⟩ rfl (by decide) "home" "north"
    "e1" rfl

-- ── C5: load failure condition ──────────────────────────────────────────────

/-- Claim C5, counterexample: a document with two home-kind rooms (and one
exit room) is accepted by load, although the claim requires exactly one
start-kind room for load to succeed. -/
theorem C5_counterexample :
    loadSucceeds docTwoHomes = true ∧
    (docTwoHomes.filter (fun p => p.2.type = "home")).length = 2 := by
  constructor
  · rfl
  · decide

/-- Claim C5, amended: load fails exactly when the document has no
home-kind room or no exit-kind room; uniqueness of the home room is not
checked, so documents with several home rooms load. -/
theorem C5_amended_load_ok_iff (rooms : List (String × Room)) :
    loadSucceeds rooms =
      (!(rooms.filter (fun p => p.2.type = "home")).isEmpty &&
       !(rooms.filter (fun p => p.2.type = "exit")).isEmpty) := by
  unfold loadSucceeds DungeonMap.load
  by_cases h1 : (rooms.filter (fun p => p.2.type = "home")).isEmpty <;>
    by_cases h2 : (rooms.filter (fun p => p.2.type = "exit")).isEmpty <;>
      simp [h1, h2]

-- ── C10: resolve_direction is total, get_room raises ────────────────────────

/-- Claim C10: for a room id absent from the graph, resolve_direction
returns None for every direction (it never raises), while get_room fails
with its KeyError on the same id. -/
theorem C10_resolve_total (m : DungeonMap) (room_id direction : String)
    (h : room_id ∉ alistKeys m.rooms) :
    m.resolve_direction room_id direction = none ∧
      m.get_room room_id = .error "DungeonMap: unknown room id." := by
  have hg := alistGet?_eq_none_of_not_mem h
  unfold DungeonMap.resolve_direction DungeonMap.get_room
  rw [hg]
  exact ⟨rfl, rfl⟩

/-- Closed instance of C10_resolve_total: the "ghost" id of the dangling
map is unknown, resolve returns None and get_room errors. -/
theorem C10_resolve_total_witness :
    (DungeonMap.mk docDangling).resolve_direction "ghost" "north" = none ∧
      (DungeonMap.mk docDangling).get_room "ghost" =
        .error "DungeonMap: unknown room id." :=
  C10_resolve_total (DungeonMap.mk docDangling) "ghost" "north" (by decide)

-- ── C4: scatter truncates instead of wrapping ───────────────────────────────

/-- Claim C4 evaluated at the failing input: two roamers, one eligible
normal room.  The shuffle of a one-element list is that list itself, yet
zip truncates: m1 is placed in r1 and m2 is left with no position at all,
where the claim (and the scatter docstring) require every roamer to be
placed, wrapping onto r1. -/
theorem C4_code_bug_eval :
    (MonsterManager.scatter ["m1", "m2"] mapOneNormal DEFAULT_STATE
        id).world.monster_positions = [("m1", "r1")] ∧
    alistGet? (MonsterManager.scatter ["m1", "m2"] mapOneNormal DEFAULT_STATE
        id).world.monster_positions "m2" = none := by
  constructor
  · rfl
  · rfl

-- ── C9 counterexample: bare mutators duplicate items ────────────────────────

/-- Claim C9, counterexample: from an invariant-satisfying state with key1
on the floor of r1, the single bare mutator call add_to_bag("key1") leaves
key1 both on the floor and in the bag — the raw mutator sequence of the
claim does not preserve the no-duplication invariant (the pickup handler
removes the floor copy; the mutator alone does not). -/
theorem C9_counterexample :
    stateKeyOnFloor.itemInv ∧
      ¬ (stateKeyOnFloor.add_to_bag "key1").2.itemInv := by
  constructor
  · decide
  · decide

-- ── C2 counterexample: boss skill sfx before persist ────────────────────────

/-- Claim C2, counterexample: in the attack handler with a boss enemy whose
taunt wav exists, the skill stinger audio plays after the hp mutations but
before save(), so the trace violates the persist-before-observable
discipline. -/
theorem C2_counterexample :
    persistDiscipline (ctrlAtk.handle_attack "sword" skillFang true).2
      = false := by
  decide

-- ── C1: narration single-flight ─────────────────────────────────────────────

theorem countNarrate_append (a b : List Effect) :
    countNarrate (a ++ b) = countNarrate a + countNarrate b := by
  simp [countNarrate, narrationsOf]

theorem countNarrate_start_combat (c : Controller) (b : String) :
    countNarrate (c.start_combat b).2 ≤ 1 := by
  unfold Controller.start_combat
  cases alistGet? c.boss_registry b <;> simp [countNarrate, narrationsOf]

theorem countNarrate_start_monster_combat (c : Controller) (m : String) :
    countNarrate (c.start_monster_combat m).2 ≤ 1 := by
  unfold Controller.start_monster_combat
  cases alistGet? c.monster_registry m <;> simp [countNarrate, narrationsOf]

theorem countNarrate_move_normal_tail (c : Controller) (d t : String)
    (room : Room) (mc : List String → String) :
    countNarrate (c.move_normal_tail d t room mc).2 ≤ 1 := by
  unfold Controller.move_normal_tail Controller.start_monster_combat
  dsimp only
  repeat' split
  all_goals simp [countNarrate_append, countNarrate, narrationsOf]

theorem countNarrate_handle_move (c : Controller) (d : String)
    (mc : List String → String) :
    countNarrate (c.handle_move d mc).2 ≤ 1 := by
  unfold Controller.handle_move Controller.start_combat
  dsimp only
  repeat' split
  all_goals
    first
    | exact countNarrate_move_normal_tail ..
    | simp [countNarrate_append, countNarrate, narrationsOf]

theorem countNarrate_handle_pickup (c : Controller) (i : String) :
    countNarrate (c.handle_pickup i).2 ≤ 1 := by
  unfold Controller.handle_pickup
  dsimp only
  repeat' split
  all_goals simp [countNarrate_append, countNarrate, narrationsOf]

theorem countNarrate_handle_attack (c : Controller) (i : String) (sk : Skill)
    (t : Bool) :
    countNarrate (c.handle_attack i sk t).2 ≤ 1 := by
  unfold Controller.handle_attack
  dsimp only
  repeat' split
  all_goals simp [countNarrate_append, countNarrate, narrationsOf]

theorem countNarrate_handle_action (c : Controller) (a : IntentAction)
    (sk : Skill) (t : Bool) (mc : List String → String) :
    countNarrate (c.handle_action a sk t mc).2 ≤ 1 := by
  unfold Controller.handle_action
  dsimp only
  split
  · simp [countNarrate, narrationsOf]
  · split
    · have := countNarrate_handle_move c a.direction mc
      simp [countNarrate, narrationsOf] at this ⊢
      omega
    · split
      · have := countNarrate_handle_pickup c a.item_id
        simp [countNarrate, narrationsOf] at this ⊢
        omega
      · split
        · have := countNarrate_handle_attack c a.item_id sk t
          simp [countNarrate, narrationsOf] at this ⊢
          omega
        · simp [countNarrate, narrationsOf]

/-- Claim C1, counterexample: from the start state of a plain two-room map
(one room-entry narration worker already running), a move intent arriving
while that worker is in flight is dispatched normally and launches a
second narration worker — the state reached in one step has two workers
running, refuting "at every reachable state at most one narration worker
is running". -/
theorem C1_counterexample :
    Reachable ctrlPlain.start_game (ostep initPlain evMoveNorth) ∧
      (ostep initPlain evMoveNorth).running = 2 :=
  ⟨Reachable.step initPlain evMoveNorth Reachable.refl, by decide⟩

/-- Claim C1, amended: the orchestrator enforces single-flight only for the
recording stream (a start-recording event while recording leaves the state
unchanged); a parsed intent arriving while a narration job is in flight is
neither rejected nor queued but dispatched, launching at most one
additional narration worker per step — the number of concurrently running
workers is therefore not bounded by one, only its per-step growth is. -/
theorem C1_amended_per_step (s : OrchState) (e : OEvent) :
    (ostep s e).running ≤ s.running + 1 ∧
      (s.is_recording = true → ostep s OEvent.startRecording = s) := by
  constructor
  · cases e with
    | startRecording =>
        simp only [ostep]
        split <;> simp
    | stopRecording =>
        simp only [ostep]
        split <;> simp
    | transcriptReady a skill t mchoice =>
        simp only [ostep]
        have := countNarrate_handle_action s.ctrl a skill t mchoice
        omega
    | narrationDone chains =>
        simp only [ostep]
        split <;> omega
  · intro hrec
    simp [ostep, hrec]

/-- Closed instance of C1_amended_per_step at a recording state. -/
theorem C1_amended_per_step_witness :
    (ostep recState evMoveNorth).running ≤ recState.running + 1 ∧
      ostep recState OEvent.startRecording = recState :=
  ⟨(C1_amended_per_step recState evMoveNorth).1,
   (C1_amended_per_step recState evMoveNorth).2 rfl⟩

-- ── C2 amended: persist discipline per handler ──────────────────────────────

/-- Claim C2, amended: in every branch of the move and pickup handlers a
persist separates each world mutation from every later observable effect
(UI notification, audio, narration launch); in the attack handler the same
holds for UI notifications and narration launches, but the boss skill
stinger audio is played between the hp mutations and the save, so audio is
exempted there. -/
theorem C2_amended_persist_discipline (c : Controller)
    (direction item_id : String) (skill : Skill) (tauntExists : Bool)
    (mchoice : List String → String) :
    persistDiscipline (c.handle_move direction mchoice).2 = true ∧
    persistDiscipline (c.handle_pickup item_id).2 = true ∧
    persistDisciplineNoAudio (c.handle_attack item_id skill tauntExists).2
      = true := by
  refine ⟨?_, ?_, ?_⟩
  · unfold Controller.handle_move Controller.move_normal_tail
      Controller.start_combat Controller.start_monster_combat
    dsimp only
    repeat' split
    all_goals
      simp [persistDiscipline, persistDisciplineNoAudio, persistBefore,
            Effect.observable, Effect.observableNoAudio]
  · unfold Controller.handle_pickup
    dsimp only
    repeat' split
    all_goals
      simp [persistDiscipline, persistDisciplineNoAudio, persistBefore,
            Effect.observable, Effect.observableNoAudio]
  · unfold Controller.handle_attack
    dsimp only
    repeat' split
    all_goals
      simp [persistDiscipline, persistDisciplineNoAudio, persistBefore,
            Effect.observable, Effect.observableNoAudio]

-- ── C6: attack resolution ───────────────────────────────────────────────────

theorem mark_boss_cleared_player (s : GameState) (b : String) :
    (s.mark_boss_cleared b).player = s.player := by
  unfold GameState.mark_boss_cleared
  split <;> rfl

theorem mem_mark_boss_cleared (s : GameState) (b : String) :
    b ∈ (s.mark_boss_cleared b).world.cleared_bosses := by
  unfold GameState.mark_boss_cleared
  split
  · rename_i h
    exact h
  · simp

theorem is_boss_cleared_mark (s : GameState) (b : String) :
    (s.mark_boss_cleared b).is_boss_cleared b = true := by
  unfold GameState.is_boss_cleared
  simpa using mem_mark_boss_cleared s b

theorem alistGet?_alistDrop_self {α : Type} {l : List (String × α)}
    {k : String} (h : (alistKeys l).Nodup) :
    alistGet? (alistDrop l k) k = none := by
  induction l with
  | nil => rfl
  | cons p rest ih =>
      obtain ⟨k', v'⟩ := p
      have hcons : alistKeys ((k', v') :: rest) = k' :: alistKeys rest := rfl
      rw [hcons] at h
      have hk' : k' ∉ alistKeys rest := (List.nodup_cons.mp h).1
      have hrest : (alistKeys rest).Nodup := (List.nodup_cons.mp h).2
      by_cases hk : k' = k
      · subst hk
        simp only [alistDrop, if_pos rfl]
        exact alistGet?_eq_none_of_not_mem hk'
      · simp only [alistDrop, if_neg hk, alistGet?, if_neg hk]
        exact ih hrest

/-- Claim C6: attacking in combat with a held, registered item sets the
enemy hp to max(0, old − item damage), the player hp to
max(0, old − max(0, skill damage − total non-weapon defense)), and fires
exactly one outcome, checked in order: enemy dead → defeat flow (guardian
marked cleared / roamer removed by kind), else player dead → death flow,
else a combat-round narration with combat continuing. -/
theorem C6_attack_resolution (c : Controller) (item_id : String)
    (skill : Skill) (tauntExists : Bool) (enemy : Enemy) (item : Item)
    (hcombat : c.in_combat = true)
    (henemy : c.current_enemy = some enemy)
    (hheld : item_id ∈ c.state.inventory)
    (hreg : alistGet? c.item_registry item_id = some item)
    (hnodup : (alistKeys c.state.world.monster_positions).Nodup) :
    (c.handle_attack item_id skill tauntExists).1.current_enemy =
      some { enemy with current_hp := max 0 (enemy.current_hp - item.damage) } ∧
    (c.handle_attack item_id skill tauntExists).1.state.player.hp =
      max 0 (c.state.player.hp - max 0 (skill.damage - c.compute_total_defense)) ∧
    (if max 0 (enemy.current_hp - item.damage) ≤ 0 then
        (if c.enemy_type = some "boss" then
           narrationsOf (c.handle_attack item_id skill tauntExists).2 =
               ["bossDefeat"] ∧
             (c.handle_attack item_id skill
               tauntExists).1.state.is_boss_cleared enemy.id = true
         else
           narrationsOf (c.handle_attack item_id skill tauntExists).2 =
               ["monsterDefeat"] ∧
             alistGet? (c.handle_attack item_id skill
               tauntExists).1.state.world.monster_positions enemy.id = none)
      else if max 0 (c.state.player.hp -
              max 0 (skill.damage - c.compute_total_defense)) ≤ 0 then
        narrationsOf (c.handle_attack item_id skill tauntExists).2 = ["death"]
      else
        narrationsOf (c.handle_attack item_id skill tauntExists).2 =
            ["combatRound"] ∧
          (c.handle_attack item_id skill tauntExists).1.in_combat = true) := by
  have hmem : ¬ item_id ∉ c.state.inventory := not_not_intro hheld
  obtain ⟨dg, st, ireg, breg, mreg, ic, ce, et, la, prn⟩ := c
  dsimp only at hcombat henemy hreg hnodup hmem ⊢
  subst hcombat
  subst henemy
  simp only [Controller.handle_attack]
  rw [hreg, if_neg (by simp), if_neg hmem]
  dsimp only [CombatManager.resolve, Controller.compute_total_defense,
    GameState.set_boss_hp, GameState.set_monster_hp, GameState.remove_monster,
    GameState.is_boss_cleared, narrationsOf]
  split_ifs with h1 h2 h3 h4 h5 h6 h7 <;>
    refine ⟨rfl, ?_, ?_⟩ <;>
      simp [narrationsOf, is_boss_cleared_mark, mark_boss_cleared_player,
        mem_mark_boss_cleared, alistGet?_alistDrop_self hnodup]

/-- Closed instance of C6_attack_resolution: sword (5 dmg) against the
20 hp boss with a 3 dmg retaliation skill and no armor. -/
theorem C6_attack_resolution_witness :
    (ctrlAtk.handle_attack "sword" skillFang false).1.current_enemy =
      some { bossG1 with
               current_hp := max 0 (bossG1.current_hp - swordItem.damage) } ∧
    (ctrlAtk.handle_attack "sword" skillFang false).1.state.player.hp =
      max 0 (ctrlAtk.state.player.hp -
        max 0 (skillFang.damage - ctrlAtk.compute_total_defense)) ∧
    (if max 0 (bossG1.current_hp - swordItem.damage) ≤ 0 then
        (if ctrlAtk.enemy_type = some "boss" then
           narrationsOf (ctrlAtk.handle_attack "sword" skillFang false).2 =
               ["bossDefeat"] ∧
             (ctrlAtk.handle_attack "sword" skillFang
               false).1.state.is_boss_cleared bossG1.id = true
         else
           narrationsOf (ctrlAtk.handle_attack "sword" skillFang false).2 =
               ["monsterDefeat"] ∧
             alistGet? (ctrlAtk.handle_attack "sword" skillFang
               false).1.state.world.monster_positions bossG1.id = none)
      else if max 0 (ctrlAtk.state.player.hp -
              max 0 (skillFang.damage - ctrlAtk.compute_total_defense)) ≤ 0 then
        narrationsOf (ctrlAtk.handle_attack "sword" skillFang false).2 =
          ["death"]
      else
        narrationsOf (ctrlAtk.handle_attack "sword" skillFang false).2 =
            ["combatRound"] ∧
          (ctrlAtk.handle_attack "sword" skillFang false).1.in_combat = true) :=
  C6_attack_resolution ctrlAtk "sword" skillFang false bossG1 swordItem rfl rfl
    (by decide) (by decide) (by decide)

-- ── C7: locked-room move ────────────────────────────────────────────────────

theorem unlock_room_eq (s : GameState) (r : String)
    (h : r ∉ s.world.unlocked_rooms) :
    s.unlock_room r =
      { s with world.unlocked_rooms := s.world.unlocked_rooms ++ [r] } := by
  unfold GameState.unlock_room
  rw [if_neg h]

theorem remove_from_inventory_bag_of_mem (s : GameState) (k : String)
    (h : k ∈ s.player.bag) :
    s.remove_from_inventory k =
      { s with player.bag := s.player.bag.erase k } := by
  unfold GameState.remove_from_inventory
  rw [if_pos h]

theorem unlock_flow_state (s : GameState) (t k d : String)
    (hnot : t ∉ s.world.unlocked_rooms) (hk : k ∈ s.player.bag) :
    (((s.unlock_room t).remove_from_inventory k).move_player
        t).set_last_action d =
      { s with player.bag := s.player.bag.erase k,
               player.current_room := t,
               player.last_action := d,
               world.unlocked_rooms := s.world.unlocked_rooms ++ [t] } := by
  rw [unlock_room_eq _ _ hnot]
  rw [remove_from_inventory_bag_of_mem
    { s with world.unlocked_rooms := s.world.unlocked_rooms ++ [t] } k hk]
  rfl

/-- Claim C7: a move into a locked, not-yet-unlocked (non-exit-kind) room
consumes the key from the bag, unlocks, moves, persists and launches the
unlock narration which chains into room-entry narration; without the key
(nowhere in the player's possession) nothing changes and only the locked
narration is launched. -/
theorem C7_locked_move (c : Controller) (direction target_id : String)
    (target_room : Room) (mchoice : List String → String)
    (hres : c.dungeon.resolve_direction c.state.player.current_room direction
      = some target_id)
    (hroom : c.dungeon.get_room target_id = .ok target_room)
    (hnotexit : target_room.type ≠ "exit")
    (hlocked : c.dungeon.is_locked target_id = true)
    (hnotunlocked : target_id ∉ c.state.world.unlocked_rooms) :
    (∀ k, c.dungeon.get_required_key target_id = some k → k ≠ "" →
      k ∈ c.state.player.bag →
      (c.handle_move direction mchoice).1.state.player.bag =
          c.state.player.bag.erase k ∧
        target_id ∈
          (c.handle_move direction mchoice).1.state.world.unlocked_rooms ∧
        (c.handle_move direction mchoice).1.state.player.current_room =
          target_id ∧
        Effect.persist ∈ (c.handle_move direction mchoice).2 ∧
        narrationsOf (c.handle_move direction mchoice).2 = ["unlock"] ∧
        narrationsOf
            ((c.handle_move direction mchoice).1.on_unlock_narration_done).2 =
          ["roomEntry"]) ∧
    ((∀ k, c.dungeon.get_required_key target_id = some k →
        k ∉ c.state.inventory) →
      (c.handle_move direction mchoice).1.state = c.state ∧
        narrationsOf (c.handle_move direction mchoice).2 = ["lockedRoom"] ∧
        Effect.persist ∉ (c.handle_move direction mchoice).2) := by
  unfold Controller.handle_move
  dsimp only
  rw [hres]
  dsimp only
  rw [hroom]
  dsimp only
  rw [if_neg (fun h => hnotexit h.1), if_pos ⟨hlocked, hnotunlocked⟩]
  constructor
  · intro k hk hkne hkbag
    rw [hk]
    dsimp only
    have hkinv : k ∈ c.state.inventory := by
      unfold GameState.inventory
      exact List.mem_append_right _ hkbag
    rw [if_pos ⟨hkne, hkinv⟩]
    rw [unlock_flow_state c.state target_id k
      ("unlocked and moved " ++ direction) hnotunlocked hkbag]
    refine ⟨rfl, by simp, rfl, by simp, by simp [narrationsOf], ?_⟩
    simp [Controller.on_unlock_narration_done, narrationsOf]
  · intro habs
    cases hk : c.dungeon.get_required_key target_id with
    | none =>
        dsimp only
        exact ⟨rfl, by simp [narrationsOf], by simp⟩
    | some k =>
        dsimp only
        rw [if_neg (fun h => habs k hk h.2)]
        exact ⟨rfl, by simp [narrationsOf], by simp⟩

/-- Closed instance of C7_locked_move on ctrlLocked (key1 in the bag,
vault locked). -/
theorem C7_locked_move_witness :
    (∀ k, ctrlLocked.dungeon.get_required_key "vault" = some k → k ≠ "" →
      k ∈ ctrlLocked.state.player.bag →
      (ctrlLocked.handle_move "north" noChoice).1.state.player.bag =
          ctrlLocked.state.player.bag.erase k ∧
        "vault" ∈
          (ctrlLocked.handle_move "north" noChoice).1.state.world.unlocked_rooms ∧
        (ctrlLocked.handle_move "north" noChoice).1.state.player.current_room =
          "vault" ∧
        Effect.persist ∈ (ctrlLocked.handle_move "north" noChoice).2 ∧
        narrationsOf (ctrlLocked.handle_move "north" noChoice).2 = ["unlock"] ∧
        narrationsOf
            ((ctrlLocked.handle_move "north"
              noChoice).1.on_unlock_narration_done).2 =
          ["roomEntry"]) ∧
    ((∀ k, ctrlLocked.dungeon.get_required_key "vault" = some k →
        k ∉ ctrlLocked.state.inventory) →
      (ctrlLocked.handle_move "north" noChoice).1.state = ctrlLocked.state ∧
        narrationsOf (ctrlLocked.handle_move "north" noChoice).2 =
          ["lockedRoom"] ∧
        Effect.persist ∉ (ctrlLocked.handle_move "north" noChoice).2) :=
  C7_locked_move ctrlLocked "north" "vault"
    { id := "vault", name := "Vault", type := "normal", locked := true,
      key_id := some "key1" }
    noChoice (by decide) rfl (by decide) (by decide) (by decide)

-- ── C8: exit gate ───────────────────────────────────────────────────────────

/-- Claim C8: a move whose resolved target room is exit-kind is blocked
whenever some guarded room's guardian is uncleared — the state is unchanged
and only the exit-sealed narration is launched; the move can only land the
player in the exit room when the gate is open, and the gate is open exactly
when every (truthy) guardian id of a boss-kind room is in the cleared
set. -/
theorem exit_gate_open_prn (c : Controller) (v : Option String) :
    ({ c with previous_room_name := v } : Controller).exit_gate_open =
      c.exit_gate_open := rfl

theorem C8_exit_gate (c : Controller) (direction target_id : String)
    (target_room : Room) (mchoice : List String → String)
    (hres : c.dungeon.resolve_direction c.state.player.current_room direction
      = some target_id)
    (hroom : c.dungeon.get_room target_id = .ok target_room)
    (hexit : target_room.type = "exit") :
    (c.exit_gate_open = false →
      (c.handle_move direction mchoice).1.state = c.state ∧
        narrationsOf (c.handle_move direction mchoice).2 = ["exitBlocked"] ∧
        (c.handle_move direction mchoice).1.state.player.current_room =
          c.state.player.current_room) ∧
    ((c.handle_move direction mchoice).1.state.player.current_room =
        target_id →
      c.state.player.current_room ≠ target_id → c.exit_gate_open = true) ∧
    (c.exit_gate_open = true ↔
      ∀ b ∈ (c.dungeon.get_all_boss_room_ids.map
          c.dungeon.get_boss_id).filterMap id,
        b ≠ "" → c.state.is_boss_cleared b = true) := by
  have hblock : c.exit_gate_open = false →
      (c.handle_move direction mchoice).1.state = c.state ∧
        narrationsOf (c.handle_move direction mchoice).2 = ["exitBlocked"] ∧
        (c.handle_move direction mchoice).1.state.player.current_room =
          c.state.player.current_room := by
    intro hgate
    unfold Controller.handle_move
    dsimp only
    rw [hres]
    dsimp only
    rw [hroom]
    dsimp only
    rw [if_pos ⟨hexit, by rw [exit_gate_open_prn]; simp [hgate]⟩]
    exact ⟨rfl, by simp [narrationsOf], rfl⟩
  refine ⟨hblock, ?_, ?_⟩
  · intro hmoved hne
    cases hg : c.exit_gate_open with
    | false =>
        exfalso
        have h1 := (hblock hg).1
        rw [h1] at hmoved
        exact hne hmoved
    | true => rfl
  · unfold Controller.exit_gate_open
    simp only [List.all_eq_true, List.mem_filter, List.mem_filterMap,
      List.mem_map, bne_iff_ne, id_eq, forall_exists_index, and_imp]

/-- Closed instance of C8_exit_gate on ctrlGuarded (boss g1 uncleared,
move east to the exit). -/
theorem C8_exit_gate_witness :
    (ctrlGuarded.exit_gate_open = false →
      (ctrlGuarded.handle_move "east" noChoice).1.state = ctrlGuarded.state ∧
        narrationsOf (ctrlGuarded.handle_move "east" noChoice).2 =
          ["exitBlocked"] ∧
        (ctrlGuarded.handle_move "east"
            noChoice).1.state.player.current_room =
          ctrlGuarded.state.player.current_room) ∧
    ((ctrlGuarded.handle_move "east" noChoice).1.state.player.current_room =
        "e1" →
      ctrlGuarded.state.player.current_room ≠ "e1" →
      ctrlGuarded.exit_gate_open = true) ∧
    (ctrlGuarded.exit_gate_open = true ↔
      ∀ b ∈ (ctrlGuarded.dungeon.get_all_boss_room_ids.map
          ctrlGuarded.dungeon.get_boss_id).filterMap id,
        b ≠ "" → ctrlGuarded.state.is_boss_cleared b = true) :=
  C8_exit_gate ctrlGuarded "east" "e1"
    { id := "e1", name := "Out", type := "exit" } noChoice (by decide)
    rfl (by decide)

-- ── C9 amended: the dispatcher preserves the containment invariant ──────────

theorem alistGet?_alistSet_self {α : Type} (l : List (String × α))
    (k : String) (v : α) : alistGet? (alistSet l k v) k = some v := by
  induction l with
  | nil => simp [alistSet, alistGet?]
  | cons p rest ih =>
      obtain ⟨k', v'⟩ := p
      by_cases hk : k' = k
      · simp [alistSet, alistGet?, hk]
      · simp [alistSet, alistGet?, hk, ih]

theorem count_room_alistSet_found {l : List (String × List String)}
    {k : String} {w : List String} (h : alistGet? l k = some w)
    (v : List String) (a : String) :
    ((alistSet l k v).flatMap Prod.snd).count a + w.count a =
      (l.flatMap Prod.snd).count a + v.count a := by
  induction l with
  | nil => simp [alistGet?] at h
  | cons p rest ih =>
      obtain ⟨k', v'⟩ := p
      by_cases hk : k' = k
      · subst hk
        simp only [alistGet?, eq_self_iff_true, if_true, Option.some.injEq]
          at h
        subst h
        simp [alistSet, List.count_append]
        omega
      · simp only [alistGet?, if_neg hk] at h
        have := ih h
        simp only [alistSet, if_neg hk, List.flatMap_cons, List.count_append]
        omega

theorem count_equip_alistSet_found {l : List (String × Option String)}
    {k : String} {w : Option String} (h : alistGet? l k = some w)
    (v : Option String) (a : String) :
    ((alistSet l k v).flatMap (fun p => p.2.toList)).count a +
        w.toList.count a =
      (l.flatMap (fun p => p.2.toList)).count a + v.toList.count a := by
  induction l with
  | nil => simp [alistGet?] at h
  | cons p rest ih =>
      obtain ⟨k', v'⟩ := p
      by_cases hk : k' = k
      · subst hk
        simp only [alistGet?, eq_self_iff_true, if_true, Option.some.injEq]
          at h
        subst h
        simp [alistSet, List.count_append]
        omega
      · simp only [alistGet?, if_neg hk] at h
        have := ih h
        simp only [alistSet, if_neg hk, List.flatMap_cons, List.count_append]
        omega

theorem count_equip_alistSet_missing {l : List (String × Option String)}
    {k : String} (h : alistGet? l k = none) (v : Option String) (a : String) :
    ((alistSet l k v).flatMap (fun p => p.2.toList)).count a =
      (l.flatMap (fun p => p.2.toList)).count a + v.toList.count a := by
  induction l with
  | nil => simp [alistSet, List.count_append]
  | cons p rest ih =>
      obtain ⟨k', v'⟩ := p
      by_cases hk : k' = k
      · simp only [alistGet?, if_pos hk] at h
        cases h
      · simp only [alistGet?, if_neg hk] at h
        have := ih h
        simp only [alistSet, if_neg hk, List.flatMap_cons, List.count_append]
        omega

theorem count_clearFirstSlot_le (l : List (String × Option String))
    (i a : String) :
    ((clearFirstSlot l i).flatMap (fun p => p.2.toList)).count a ≤
      (l.flatMap (fun p => p.2.toList)).count a := by
  induction l with
  | nil => simp [clearFirstSlot]
  | cons p rest ih =>
      obtain ⟨sl, v⟩ := p
      by_cases hv : v = some i
      · simp only [clearFirstSlot, if_pos hv, List.flatMap_cons,
          List.count_append]
        simp [Option.toList]
      · simp only [clearFirstSlot, if_neg hv, List.flatMap_cons,
          List.count_append]
        omega

theorem nodup_iff_occ (s : GameState) : s.itemInv ↔ ∀ a, s.occ a ≤ 1 := by
  unfold GameState.itemInv GameState.occ
  exact List.nodup_iff_count_le_one

theorem count_erase_balance (items : List String) (i a : String)
    (hmem : i ∈ items) :
    (items.erase i).count a + (if a = i then 1 else 0) = items.count a := by
  by_cases hia : a = i
  · subst hia
    have h1 : 0 < items.count a := List.count_pos_iff.mpr hmem
    have h2 := List.count_erase_self a items
    simp only [eq_self_iff_true, if_true]
    omega
  · rw [List.count_erase_of_ne hia, if_neg hia]
    omega

theorem occ_remove_room_item {s : GameState} {room i : String}
    {items : List String}
    (hroom : alistGet? s.world.room_items room = some items)
    (hmem : i ∈ items) (a : String) :
    (s.remove_room_item room i).occ a + (if a = i then 1 else 0) =
      s.occ a := by
  unfold GameState.remove_room_item GameState.occ GameState.allContained
  rw [hroom]
  simp only [Option.getD_some, if_pos hmem, List.count_append]
  have hset := count_room_alistSet_found hroom (items.erase i) a
  have herase := count_erase_balance items i a hmem
  omega

theorem occ_add_bag (s : GameState) (i a : String) :
    ({ s with player.bag := s.player.bag ++ [i] } : GameState).occ a =
      s.occ a + (if a = i then 1 else 0) := by
  unfold GameState.occ GameState.allContained
  by_cases hia : a = i
  · simp [hia, List.count_append]
    omega
  · simp [hia, List.count_append]

theorem remove_from_inventory_preserves_itemInv (s : GameState) (i : String)
    (h : s.itemInv) : (s.remove_from_inventory i).itemInv := by
  rw [nodup_iff_occ] at h ⊢
  intro a
  have ha := h a
  unfold GameState.remove_from_inventory
  split
  · unfold GameState.occ GameState.allContained at ha ⊢
    simp only [List.count_append] at ha ⊢
    have h2 : (s.player.bag.erase i).count a ≤ s.player.bag.count a := by
      by_cases hia : a = i
      · subst hia
        rw [List.count_erase_self]
        omega
      · rw [List.count_erase_of_ne hia]
    omega
  · unfold GameState.occ GameState.allContained at ha ⊢
    simp only [List.count_append] at ha ⊢
    have h2 := count_clearFirstSlot_le s.player.equipped i a
    omega

theorem occ_equip_found {s : GameState} {slot : String} {w : Option String}
    (h : alistGet? s.player.equipped slot = some w) (i a : String) :
    ({ s with player.equipped :=
        alistSet s.player.equipped slot (some i) } : GameState).occ a +
      w.toList.count a =
      s.occ a + (if a = i then 1 else 0) := by
  unfold GameState.occ GameState.allContained
  simp only [List.count_append]
  have hset := count_equip_alistSet_found h (some i) a
  have hsing : ((some i : Option String).toList).count a =
      if a = i then 1 else 0 := by
    by_cases hia : a = i <;> simp [hia]
  omega

theorem occ_equip_missing {s : GameState} {slot : String}
    (h : alistGet? s.player.equipped slot = none) (i a : String) :
    ({ s with player.equipped :=
        alistSet s.player.equipped slot (some i) } : GameState).occ a =
      s.occ a + (if a = i then 1 else 0) := by
  unfold GameState.occ GameState.allContained
  simp only [List.count_append]
  have hset := count_equip_alistSet_missing h (some i) a
  have hsing : ((some i : Option String).toList).count a =
      if a = i then 1 else 0 := by
    by_cases hia : a = i <;> simp [hia]
  omega

theorem occ_set_room_items_append {s : GameState} {room : String}
    {items : List String}
    (h : alistGet? s.world.room_items room = some items) (o a : String) :
    (s.set_room_items room (items ++ [o])).occ a =
      s.occ a + (if a = o then 1 else 0) := by
  unfold GameState.set_room_items GameState.occ GameState.allContained
  simp only [List.count_append]
  have hset := count_room_alistSet_found h (items ++ [o]) a
  have hsing : (items ++ [o]).count a =
      items.count a + (if a = o then 1 else 0) := by
    by_cases hao : a = o <;> simp [hao, List.count_append]
  omega

theorem room_items_after_remove {s : GameState} {room i : String}
    {items : List String}
    (h : alistGet? s.world.room_items room = some items) (hmem : i ∈ items) :
    alistGet? (s.remove_room_item room i).world.room_items room =
      some (items.erase i) := by
  unfold GameState.remove_room_item
  rw [h]
  simp only [Option.getD_some, if_pos hmem]
  exact alistGet?_alistSet_self ..

theorem handle_pickup_preserves_itemInv (c : Controller) (i : String)
    (h : c.state.itemInv) : (c.handle_pickup i).1.state.itemInv := by
  rw [nodup_iff_occ] at h ⊢
  intro a
  have ha := h a
  unfold Controller.handle_pickup
  dsimp only
  by_cases hmem : i ∈ c.state.get_room_items c.state.player.current_room
  case neg =>
    rw [if_pos hmem]
    exact ha
  case pos =>
    rw [if_neg (not_not_intro hmem)]
    rcases hri : alistGet? c.state.world.room_items
        c.state.player.current_room with _ | items
    · exfalso
      unfold GameState.get_room_items at hmem
      rw [hri] at hmem
      simp at hmem
    · have hmem' : i ∈ items := by
        unfold GameState.get_room_items at hmem
        rw [hri] at hmem
        simpa using hmem
      cases hreg : alistGet? c.item_registry i with
      | none =>
          dsimp only
          exact ha
      | some item =>
          dsimp only
          by_cases hkey : item.type = "key"
          · rw [if_pos hkey]
            unfold GameState.add_to_bag
            split
            · dsimp only
              exact ha
            · have hroom1 : alistGet? ({ c.state with player.bag := c.state.player.bag ++ [i] } : GameState).world.room_items c.state.player.current_room = some items := hri
              have e1 := occ_remove_room_item hroom1 hmem' a
              have e2 := occ_add_bag c.state i a
              rw [if_neg (by decide : ¬ (true = false))]
              dsimp only at e1 e2 ⊢
              omega
          · rw [if_neg hkey]
            by_cases harm : item.type = "weapon" ∨ item.type = "armor"
            · rw [if_pos harm]
              unfold GameState.equip_item
              dsimp only
              rcases heq : alistGet? c.state.player.equipped item.slot
                  with _ | w
              · simp only [Option.getD_none]
                have hroom1 : alistGet? ({ c.state with player.equipped := alistSet c.state.player.equipped item.slot (some i) } : GameState).world.room_items c.state.player.current_room = some items := hri
                have e1 := occ_remove_room_item hroom1 hmem' a
                have e2 := occ_equip_missing heq i a
                dsimp only at e1 e2 ⊢
                omega
              · simp only [Option.getD_some]
                have hroom1 : alistGet? ({ c.state with player.equipped := alistSet c.state.player.equipped item.slot (some i) } : GameState).world.room_items c.state.player.current_room = some items := hri
                have e1 := occ_remove_room_item hroom1 hmem' a
                have e2 := occ_equip_found heq i a
                cases w with
                | none =>
                    dsimp only
                    have h0 : ((none : Option String).toList).count a = 0 := rfl
                    dsimp only at e1 e2 ⊢
                    omega
                | some o =>
                    dsimp only
                    have hw : ((some o : Option String).toList).count a =
                        if a = o then 1 else 0 := by
                      by_cases hao : a = o <;> simp [hao]
                    by_cases ho : o ≠ "" ∧ o ≠ "bare_hands"
                    · rw [if_pos ho]
                      dsimp only
                      have hroom2 := room_items_after_remove hroom1 hmem'
                      have hgri : (({ c.state with player.equipped := alistSet c.state.player.equipped item.slot (some i) } : GameState).remove_room_item c.state.player.current_room i).get_room_items c.state.player.current_room = items.erase i := by
                        unfold GameState.get_room_items
                        rw [hroom2]
                        rfl
                      rw [hgri]
                      have e3 := occ_set_room_items_append hroom2 o a
                      dsimp only at e1 e2 e3 ⊢
                      omega
                    · rw [if_neg ho]
                      dsimp only at e1 e2 ⊢
                      omega
            · rw [if_neg harm]
              by_cases hpot : item.type = "potion"
              · rw [if_pos hpot]
                unfold GameState.heal
                dsimp only
                have hroom1 : alistGet? ({ c.state with player.hp := min (c.state.player.hp + item.heal) c.state.player.max_hp } : GameState).world.room_items c.state.player.current_room = some items := hri
                have e1 := occ_remove_room_item hroom1 hmem' a
                have e0 : ({ c.state with player.hp := min (c.state.player.hp + item.heal) c.state.player.max_hp } : GameState).occ a = c.state.occ a := rfl
                dsimp only at e1 e0 ⊢
                omega
              · rw [if_neg hpot]
                exact ha

/-- Claim C9, amended: the bare state mutators equip_item and add_to_bag do
not preserve the no-duplication invariant on their own (they leave the
picked item on the room floor, see the counterexample); what preserves it
is the dispatcher level: after any sequence of pickup operations
(GameController._handle_pickup, which pairs equip/add_to_bag with the floor
removal) and remove_from_inventory calls starting from a state satisfying
the invariant, no item id occurs in more than one container. -/
theorem C9_amended_dispatcher_inv (c : Controller) (ops : List DispatchOp)
    (h : c.state.itemInv) : (c.applyOps ops).state.itemInv := by
  induction ops generalizing c with
  | nil => exact h
  | cons op rest ih =>
      cases op with
      | pickup i => exact ih _ (handle_pickup_preserves_itemInv c i h)
      | removeItem i =>
          exact ih _ (remove_from_inventory_preserves_itemInv c.state i h)

/-- Closed instance of C9_amended_dispatcher_inv: picking up key1 from the
floor of r1 (moving it into the bag) keeps the invariant. -/
theorem C9_amended_dispatcher_inv_witness :
    (ctrlBag.applyOps [DispatchOp.pickup "key1"]).state.itemInv :=
  C9_amended_dispatcher_inv ctrlBag [DispatchOp.pickup "key1"] (by decide)

end VoiceGame
